import Mathlib

/-!
Shallow embedding of the `create-joji-app` scaffolding CLI.

The program collects a few answers interactively (project location, project
name, whether to include React Router, whether to install dependencies now),
then creates a directory tree, writes a generated `package.json` and a fixed
set of config/source files, optionally runs `npm install`, and runs three git
commands.  The embedding below translates the relevant functions of the source
(`createProjectStructure`, `createPackageJson`, `createConfigFiles`,
`createSourceFiles`, `installDependencies`, `initializeGit`, the two prompt
validators, the name-collection loop and the main action sequence) into pure
Lean definitions.  The file system is modelled as a list of entries (path plus
a flag marking directories); shelling out and printing are modelled as traces.
-/

namespace CreateJojiApp

/-- The answers collected by the interactive prompts: `projectName`,
`projectLocation` (raw, as typed), `useRouter` and `installNow`. -/
structure Answers where
  projectName : String
  projectLocation : String
  useRouter : Bool
  installNow : Bool
deriving DecidableEq, Repr

/-! ### File-system model

`fs.existsSync` only tests the existence of an entry, file or directory alike,
so the model keeps a flag telling which entries are directories. -/

/-- One entry of the modelled disk: a path and whether it is a directory. -/
structure FsNode where
  path : String
  isDir : Bool
deriving DecidableEq, Repr

/-- The modelled disk contents at the time the tool runs. -/
abbrev Fs := List FsNode

/-- Model of `fs.existsSync`: true when any entry (file or directory) has the
given path. -/
def existsSync (fs : Fs) (p : String) : Bool :=
  fs.any fun e => e.path == p

/-- Whether the given path is a directory on the modelled disk. -/
def isDirOn (fs : Fs) (p : String) : Bool :=
  fs.any fun e => e.path == p && e.isDir

/-- Model of Node's `path.join` for the two-argument calls the program makes:
concatenate with a single separator. -/
def pathJoin (a b : String) : String :=
  if a = "" then b
  else if a.data.getLast? = some '/' then a ++ b
  else a ++ "/" ++ b

/-! ### Project-name validator (`validate` of the `projectName` prompt) -/

/-- One character of the class `[a-z0-9-_]` of the validator regex. -/
def isNameChar (c : Char) : Bool :=
  (decide ('a' ≤ c) && decide (c ≤ 'z')) ||
  (decide ('0' ≤ c) && decide (c ≤ '9')) ||
  c == '-' || c == '_'

/-- Model of the JavaScript test `/^[a-z0-9-_]+$/.test(input)`: the string is
non-empty and every character lies in the class. -/
def nameRegexTest (s : String) : Bool :=
  !s.data.isEmpty && s.data.all isNameChar

/-- The error string returned by the `projectName` validator. -/
def nameErrorMessage : String :=
  "Project name can only contain lowercase letters, numbers, hyphens, and underscores"

/-- Model of the `projectName` prompt's `validate` callback: `ok` when the
regex test passes, otherwise the error message. -/
def projectNameValidate (input : String) : Except String Unit :=
  if nameRegexTest input then Except.ok () else Except.error nameErrorMessage

/-- Spec-side reading of the regular expression `^[a-z0-9-_]+$`: a non-empty
string of lowercase letters, digits, hyphens and underscores. -/
def MatchesNameRegex (s : String) : Prop :=
  s.data ≠ [] ∧ ∀ c ∈ s.data,
    ('a' ≤ c ∧ c ≤ 'z') ∨ ('0' ≤ c ∧ c ≤ '9') ∨ c = '-' ∨ c = '_'

instance (s : String) : Decidable (MatchesNameRegex s) := by
  unfold MatchesNameRegex; infer_instance

lemma isNameChar_iff (c : Char) :
    isNameChar c = true ↔
      ('a' ≤ c ∧ c ≤ 'z') ∨ ('0' ≤ c ∧ c ≤ '9') ∨ c = '-' ∨ c = '_' := by
  simp [isNameChar, Bool.or_eq_true, Bool.and_eq_true, decide_eq_true_iff,
    beq_iff_eq, or_assoc]

lemma nameRegexTest_iff (s : String) :
    nameRegexTest s = true ↔ MatchesNameRegex s := by
  simp only [nameRegexTest, MatchesNameRegex, Bool.and_eq_true,
    Bool.not_eq_true', List.isEmpty_eq_false, List.all_eq_true]
  constructor
  · rintro ⟨h1, h2⟩
    exact ⟨h1, fun c hc => (isNameChar_iff c).mp (h2 c hc)⟩
  · rintro ⟨h1, h2⟩
    exact ⟨h1, fun c hc => (isNameChar_iff c).mpr (h2 c hc)⟩

/-- C1: the project-name validator accepts exactly the strings matching
`^[a-z0-9-_]+$`, and returns the error message on every other string. -/
theorem c1_projectName_validator_accepts_iff_regex (s : String) :
    (projectNameValidate s = Except.ok () ↔ MatchesNameRegex s) ∧
    (projectNameValidate s = Except.error nameErrorMessage ↔ ¬ MatchesNameRegex s) := by
  unfold projectNameValidate
  rcases h : nameRegexTest s with _ | _
  · have hm : ¬ MatchesNameRegex s := fun hc => by
      rw [← nameRegexTest_iff] at hc; simp [h] at hc
    simp [hm]
  · have hm : MatchesNameRegex s := (nameRegexTest_iff s).mp h
    simp [hm]

/-! ### Location prompt: backslash normalization and existence validation -/

/-- Model of `input.replace(/\\/g, '/')`: every backslash becomes a forward
slash, every other character is kept. -/
def normalizeSlashes (s : String) : String :=
  String.mk (s.data.map fun c => if c = '\\' then '/' else c)

/-- The error string returned by the `projectLocation` validator. -/
def locationErrorMessage : String :=
  "That directory does not exist. Please enter a valid path."

/-- Model of the `projectLocation` prompt's `validate` callback: normalize the
backslashes, then test `fs.existsSync` on the result. -/
def locationValidate (fs : Fs) (input : String) : Except String Unit :=
  if existsSync fs (normalizeSlashes input) then Except.ok ()
  else Except.error locationErrorMessage

/-- The location prompt keeps re-asking until the validator passes: the
answer is the first entered input the validator accepts. -/
def promptLocation (fs : Fs) (inputs : List String) : Option String :=
  inputs.find? fun i =>
    match locationValidate fs i with
    | Except.ok _ => true
    | Except.error _ => false

/-- `projectPath = path.join(normalizedLocation, projectName)` where
`normalizedLocation` is the accepted location with backslashes replaced. -/
def projectPathOf (loc name : String) : String :=
  pathJoin (normalizeSlashes loc) name

/-! ### Name-collection loop (`while (!nameIsValid)`) -/

/-- Model of the `while (!nameIsValid)` loop: the list holds the successive
names the user enters (each already accepted by the name validator); a name
whose joined path exists on disk is rejected and the next one is asked for;
the loop ends at the first name whose path does not exist, yielding the name
and the computed project path. -/
def nameLoop (fs : Fs) (loc : String) : List String → Option (String × String)
  | [] => none
  | n :: rest =>
    let pp := pathJoin (normalizeSlashes loc) n
    if existsSync fs pp then nameLoop fs loc rest else some (n, pp)

/-- The project path the scaffolding steps run with: the path computed by the
terminating iteration of the name loop (none when the loop never ends). -/
def mainScaffoldTarget (fs : Fs) (loc : String) (names : List String) : Option String :=
  (nameLoop fs loc names).map Prod.snd

lemma nameLoop_some {fs : Fs} {loc : String} {names : List String}
    {n pp : String} (h : nameLoop fs loc names = some (n, pp)) :
    pp = pathJoin (normalizeSlashes loc) n ∧ existsSync fs pp = false := by
  induction names with
  | nil => simp [nameLoop] at h
  | cons m rest ih =>
    rw [nameLoop] at h
    rcases he : existsSync fs (pathJoin (normalizeSlashes loc) m) with _ | _
    · rw [he] at h
      simp only [Bool.false_eq_true, if_false, Option.some.injEq, Prod.mk.injEq] at h
      obtain ⟨h1, h2⟩ := h
      subst h1
      exact ⟨h2.symm, h2 ▸ he⟩
    · rw [he, if_pos rfl] at h
      exact ih h

/-- C2: a name whose directory already exists makes the loop move on to the
next entered name (a re-prompt), and whenever the loop produces a project
path — the only way scaffolding is reached — that path does not exist on the
modelled disk. -/
theorem c2_name_loop_target_not_existing (fs : Fs) (loc : String) :
    (∀ n rest, existsSync fs (pathJoin (normalizeSlashes loc) n) = true →
      nameLoop fs loc (n :: rest) = nameLoop fs loc rest) ∧
    (∀ names pp, mainScaffoldTarget fs loc names = some pp →
      existsSync fs pp = false) := by
  constructor
  · intro n rest h
    unfold nameLoop
    simp only [h, if_pos]
    cases rest <;> rfl
  · intro names pp h
    unfold mainScaffoldTarget at h
    rcases hl : nameLoop fs loc names with _ | ⟨n, pp'⟩
    · rw [hl] at h; simp at h
    · rw [hl] at h
      obtain rfl : pp' = pp := by simpa using h
      exact (nameLoop_some hl).2

/-- C2 witness: with `proj/taken` on disk, the loop skips the name `taken`,
accepts `fresh`, and the resulting path does not exist. -/
theorem c2_name_loop_witness :
    nameLoop [⟨"proj/taken", true⟩] "proj" ["taken", "fresh"] =
      nameLoop [⟨"proj/taken", true⟩] "proj" ["fresh"] ∧
    existsSync [⟨"proj/taken", true⟩] "proj/fresh" = false :=
  ⟨(c2_name_loop_target_not_existing [⟨"proj/taken", true⟩] "proj").1
      "taken" ["fresh"] (by decide),
   (c2_name_loop_target_not_existing [⟨"proj/taken", true⟩] "proj").2
      ["taken", "fresh"] "proj/fresh" (by decide)⟩

/-! ### Directory creation (`createProjectStructure`) -/

/-- The directories `createProjectStructure` ensures, in order: the project
path itself, `src`, `src/components`, `src/assets`, `src/styles`, `public`,
and `src/pages` exactly when the router was chosen. -/
def createProjectStructure (projectPath : String) (a : Answers) : List String :=
  [projectPath,
   pathJoin projectPath "src",
   pathJoin projectPath "src/components",
   pathJoin projectPath "src/assets",
   pathJoin projectPath "src/styles",
   pathJoin projectPath "public"] ++
  (if a.useRouter then [pathJoin projectPath "src/pages"] else [])

/-- C5: the directories created are exactly the project path itself and
`src`, `src/components`, `src/assets`, `src/styles`, `public` under it, plus
`src/pages` exactly when the router was chosen — nothing else. -/
theorem c5_created_directories (p : String) (a : Answers) (d : String) :
    d ∈ createProjectStructure p a ↔
      (d = p ∨ d = pathJoin p "src" ∨ d = pathJoin p "src/components" ∨
       d = pathJoin p "src/assets" ∨ d = pathJoin p "src/styles" ∨
       d = pathJoin p "public" ∨
       (a.useRouter = true ∧ d = pathJoin p "src/pages")) := by
  rcases h : a.useRouter with _ | _ <;> simp [createProjectStructure, h]

/-! ### `package.json` generation (`createPackageJson`) -/

/-- The JavaScript object passed to `JSON.stringify`, field for field.
Objects with string values are kept as association lists in insertion
order, the order `JSON.stringify` prints them in. -/
structure PackageJson where
  name : String
  «private» : Bool
  version : String
  type : String
  scripts : List (String × String)
  dependencies : List (String × String)
  devDependencies : List (String × String)
deriving DecidableEq, Repr

/-- Model of `createPackageJson`: the dependency map starts from react and
react-dom and gains `react-router-dom` when the router was chosen; every
other field is fixed except `name`, which is the answered project name. -/
def createPackageJson (a : Answers) : PackageJson :=
  { name := a.projectName
    «private» := true
    version := "0.1.0"
    type := "module"
    scripts := [("dev", "vite"), ("build", "vite build"), ("preview", "vite preview")]
    dependencies :=
      [("react", "^18.3.1"), ("react-dom", "^18.3.1")] ++
      (if a.useRouter then [("react-router-dom", "^6.26.0")] else [])
    devDependencies :=
      [("@vitejs/plugin-react", "^4.3.1"), ("autoprefixer", "^10.4.20"),
       ("postcss", "^8.4.41"), ("tailwindcss", "^3.4.10"), ("vite", "^5.4.1")] }

/-- Hexadecimal digit for the `\u00XX` escapes of `JSON.stringify`. -/
def hexDigit (n : Nat) : Char :=
  if n < 10 then Char.ofNat (48 + n) else Char.ofNat (87 + n)

/-- The escape `JSON.stringify` applies to one character inside a string. -/
def jsonEscapeChar (c : Char) : String :=
  if c = '"' then "\\\""
  else if c = '\\' then "\\\\"
  else if c = '\n' then "\\n"
  else if c = '\t' then "\\t"
  else if c = '\r' then "\\r"
  else if c = '\x08' then "\\b"
  else if c = '\x0c' then "\\f"
  else if c.toNat < 32 then
    "\\u00" ++ String.mk [hexDigit (c.toNat / 16), hexDigit (c.toNat % 16)]
  else String.mk [c]

/-- A JSON string literal as `JSON.stringify` prints it. -/
def jsonStr (s : String) : String :=
  "\"" ++ String.join (s.data.map jsonEscapeChar) ++ "\""

/-- A nested string-valued object as `JSON.stringify(obj, null, 2)` prints it
one level deep (keys indented four spaces, closing brace two). -/
def renderStrObj (fields : List (String × String)) : String :=
  "\x7b\n" ++
  String.intercalate ",\n"
    (fields.map fun f => "    " ++ jsonStr f.1 ++ ": " ++ jsonStr f.2) ++
  "\n  \x7d"

/-- `JSON.stringify(packageJson, null, 2)`: the file content written to
`package.json`. -/
def renderPackageJson (p : PackageJson) : String :=
  "\x7b\n  " ++ jsonStr "name" ++ ": " ++ jsonStr p.name ++ ",\n  " ++
  jsonStr "private" ++ ": " ++ (if p.«private» then "true" else "false") ++ ",\n  " ++
  jsonStr "version" ++ ": " ++ jsonStr p.version ++ ",\n  " ++
  jsonStr "type" ++ ": " ++ jsonStr p.type ++ ",\n  " ++
  jsonStr "scripts" ++ ": " ++ renderStrObj p.scripts ++ ",\n  " ++
  jsonStr "dependencies" ++ ": " ++ renderStrObj p.dependencies ++ ",\n  " ++
  jsonStr "devDependencies" ++ ": " ++ renderStrObj p.devDependencies ++ "\n\x7d"

/-- The byte content the tool writes to `package.json` for given answers. -/
def packageJsonContent (a : Answers) : String :=
  renderPackageJson (createPackageJson a)

/-- C3: the generated `package.json` has the answered name, `private: true`,
version 0.1.0, the fixed react/react-dom dependency versions and the five
fixed devDependency versions; `react-router-dom ^6.26.0` is present exactly
when the router was chosen; and the file content depends on no answer other
than `projectName` and `useRouter`. -/
theorem c3_package_json_fields (a : Answers) :
    (createPackageJson a).name = a.projectName ∧
    (createPackageJson a).«private» = true ∧
    (createPackageJson a).version = "0.1.0" ∧
    ("react", "^18.3.1") ∈ (createPackageJson a).dependencies ∧
    ("react-dom", "^18.3.1") ∈ (createPackageJson a).dependencies ∧
    (createPackageJson a).devDependencies =
      [("@vitejs/plugin-react", "^4.3.1"), ("autoprefixer", "^10.4.20"),
       ("postcss", "^8.4.41"), ("tailwindcss", "^3.4.10"), ("vite", "^5.4.1")] ∧
    ((("react-router-dom", "^6.26.0") ∈ (createPackageJson a).dependencies) ↔
      a.useRouter = true) ∧
    (∀ b : Answers, a.projectName = b.projectName → a.useRouter = b.useRouter →
      packageJsonContent a = packageJsonContent b) := by
  refine ⟨rfl, rfl, rfl, by simp [createPackageJson], by simp [createPackageJson],
    rfl, ?_, ?_⟩
  · rcases h : a.useRouter with _ | _ <;> simp [createPackageJson, h]
  · intro b h1 h2
    unfold packageJsonContent createPackageJson
    rw [h1, h2]

/-- C3 witness: two answer records that agree on name and router choice but
differ in location and install choice produce the same `package.json` bytes. -/
theorem c3_package_json_witness :
    packageJsonContent ⟨"app", "loc", true, false⟩ =
      packageJsonContent ⟨"app", "elsewhere", true, true⟩ :=
  (c3_package_json_fields ⟨"app", "loc", true, false⟩).2.2.2.2.2.2.2
    ⟨"app", "elsewhere", true, true⟩ rfl rfl

/-! ### Source-file templates (`createSourceFiles`) and substring search -/

/-- Whether `pat` is a prefix of the second list. -/
def isPrefixOfL : List Char → List Char → Bool
  | [], _ => true
  | _ :: _, [] => false
  | a :: as, b :: bs => a == b && isPrefixOfL as bs

/-- Whether `pat` occurs somewhere in the second list. -/
def containsSub (pat : List Char) : List Char → Bool
  | [] => isPrefixOfL pat []
  | c :: t => isPrefixOfL pat (c :: t) || containsSub pat t

/-- Whether `pat` occurs as a substring of `s`. -/
def containsStr (s pat : String) : Bool :=
  containsSub pat.data s.data

/-- The `index.html` template: fixed but for the project name in `<title>`. -/
def indexHtml (a : Answers) : String :=
  "<!doctype html>\n<html lang=\"en\">\n  <head>\n    <meta charset=\"UTF-8\" />\n" ++
  "    <meta name=\"viewport\" content=\"width=device-width, initial-scale=1.0\" />\n" ++
  "    <title>" ++ a.projectName ++ "</title>\n  </head>\n  <body>\n" ++
  "    <div id=\"root\"></div>\n    <script type=\"module\" src=\"/src/main.jsx\"></script>\n" ++
  "  </body>\n</html>\n"

/-- The `src/main.jsx` template: the router import line and the wrapping of
`<App />` in `<BrowserRouter>` are interpolated when `useRouter` holds,
otherwise the interpolations are the empty string and a bare `<App />`. -/
def mainJsx (a : Answers) : String :=
  "import \x7b StrictMode \x7d from 'react'\n" ++
  "import \x7b createRoot \x7d from 'react-dom/client'\n" ++
  (if a.useRouter then "import \x7b BrowserRouter \x7d from 'react-router-dom'" else "") ++
  "\nimport './styles/index.css'\nimport App from './App.jsx'\n\n" ++
  "createRoot(document.getElementById('root')).render(\n  <StrictMode>\n    " ++
  (if a.useRouter then "<BrowserRouter>\n      <App />\n    </BrowserRouter>"
   else "<App />") ++
  "\n  </StrictMode>,\n)\n"

/-- The `src/App.jsx` template: fixed but for the project name in the `<h1>`. -/
def appJsx (a : Answers) : String :=
  "function App() \x7b\n  return (\n" ++
  "    <div className=\"min-h-screen bg-gradient-to-br from-blue-50 to-indigo-100 flex items-center justify-center p-4\">\n" ++
  "      <div className=\"bg-white rounded-2xl shadow-xl p-8 max-w-md w-full\">\n" ++
  "        <h1 className=\"text-4xl font-bold text-gray-800 mb-4\">\n" ++
  "          " ++ a.projectName ++ "\n        </h1>\n" ++
  "        <p className=\"text-gray-600 mb-6\">\n" ++
  "          Welcome to your new React + Vite + Tailwind project! 🚀\n        </p>\n" ++
  "        <button className=\"w-full bg-blue-600 hover:bg-blue-700 text-white font-medium py-3 px-4 rounded-lg transition-colors\">\n" ++
  "          Get Started\n        </button>\n      </div>\n    </div>\n  )\n\x7d\n\nexport default App\n"

/-- The `src/styles/index.css` content. -/
def indexCss : String :=
  "@tailwind base\n@tailwind components\n@tailwind utilities\n"

/-- The router import line interpolated into `src/main.jsx`. -/
def routerImportLine : String :=
  "import \x7b BrowserRouter \x7d from 'react-router-dom'"

/-- The router-wrapped render tree interpolated into `src/main.jsx`. -/
def routerWrappedApp : String :=
  "<BrowserRouter>\n      <App />\n    </BrowserRouter>"

set_option maxRecDepth 100000 in
/-- C4: `src/main.jsx` contains the `BrowserRouter` import line and the
`<BrowserRouter>`-wrapped `<App />` exactly when the router was chosen; the
name `BrowserRouter` and the package name `react-router-dom` appear nowhere
when it was declined, while `<App />` is rendered in every case. -/
theorem c4_mainJsx_router_iff (a : Answers) :
    containsStr (mainJsx a) routerImportLine = a.useRouter ∧
    containsStr (mainJsx a) routerWrappedApp = a.useRouter ∧
    containsStr (mainJsx a) "BrowserRouter" = a.useRouter ∧
    containsStr (mainJsx a) "react-router-dom" = a.useRouter ∧
    containsStr (mainJsx a) "<App />" = true := by
  rcases h : a.useRouter with _ | _ <;> simp only [mainJsx, h] <;> decide

/-! ### Config files (`createConfigFiles`) and the scaffolding sequence -/

/-- The fixed `vite.config.js` content. -/
def viteConfig : String :=
  "import \x7b defineConfig \x7d from 'vite'\nimport react from '@vitejs/plugin-react'\n\n" ++
  "export default defineConfig(\x7b\n  plugins: [react()],\n\x7d)\n"

/-- The fixed `tailwind.config.js` content. -/
def tailwindConfig : String :=
  "/** @type \x7bimport('tailwindcss').Config\x7d */\nexport default \x7b\n  content: [\n" ++
  "    \"./index.html\",\n    \"./src/**/*.\x7bjs,ts,jsx,tsx\x7d\",\n  ],\n" ++
  "  theme: \x7b\n    extend: \x7b\x7d,\n  \x7d,\n  plugins: [],\n\x7d\n"

/-- The fixed `postcss.config.js` content. -/
def postcssConfig : String :=
  "export default \x7b\n  plugins: \x7b\n    tailwindcss: \x7b\x7d,\n" ++
  "    autoprefixer: \x7b\x7d,\n  \x7d,\n\x7d\n"

/-- The fixed `.gitignore` content. -/
def gitignore : String :=
  "node_modules\ndist\ndist-ssr\n*.local\n.DS_Store\n"

/-- The four writes `createConfigFiles` performs: path and byte content. -/
def createConfigFilesWrites (p : String) : List (String × String) :=
  [(pathJoin p "vite.config.js", viteConfig),
   (pathJoin p "tailwind.config.js", tailwindConfig),
   (pathJoin p "postcss.config.js", postcssConfig),
   (pathJoin p ".gitignore", gitignore)]

/-- The four writes `createSourceFiles` performs: path and byte content. -/
def createSourceFilesWrites (p : String) (a : Answers) : List (String × String) :=
  [(pathJoin p "index.html", indexHtml a),
   (pathJoin p "src/main.jsx", mainJsx a),
   (pathJoin p "src/App.jsx", appJsx a),
   (pathJoin p "src/styles/index.css", indexCss)]

/-- One file-system action performed by a scaffolding step. -/
inductive FsAction where
  | ensureDir (p : String)
  | writeFile (p : String) (content : String)
deriving DecidableEq, Repr

/-- One artifact left on disk by a scaffolding action. -/
inductive Artifact where
  | dir (p : String)
  | file (p : String) (content : String)
deriving DecidableEq, Repr

/-- The artifact an action leaves behind. -/
def entryOf : FsAction → Artifact
  | FsAction.ensureDir p => Artifact.dir p
  | FsAction.writeFile p c => Artifact.file p c

/-- Running a list of actions adds their artifacts to the disk; no action of
the program ever removes anything. -/
def applyActions (s : List Artifact) : List FsAction → List Artifact
  | [] => s
  | act :: rest => applyActions (s ++ [entryOf act]) rest

/-- Running the actions with action number `failAt` throwing: the actions
before it take effect, the failing one and everything after it do not, the
error flag is reported, and no already-created artifact is touched. -/
def runWithFailure (s : List Artifact) : List FsAction → Nat → List Artifact × Bool
  | [], _ => (s, false)
  | _ :: _, 0 => (s, true)
  | act :: rest, k + 1 => runWithFailure (s ++ [entryOf act]) rest k

/-- The file-system actions of the four scaffolding steps, in call order:
`createProjectStructure`, `createPackageJson`, `createConfigFiles`,
`createSourceFiles`. -/
def scaffoldActions (pp : String) (a : Answers) : List FsAction :=
  (createProjectStructure pp a).map FsAction.ensureDir ++
  [FsAction.writeFile (pathJoin pp "package.json") (packageJsonContent a)] ++
  (createConfigFilesWrites pp).map (fun w => FsAction.writeFile w.1 w.2) ++
  (createSourceFilesWrites pp a).map (fun w => FsAction.writeFile w.1 w.2)

lemma applyActions_eq (acts : List FsAction) :
    ∀ s, applyActions s acts = s ++ acts.map entryOf := by
  induction acts with
  | nil => intro s; simp [applyActions]
  | cons act rest ih =>
    intro s
    rw [applyActions, ih]
    simp

lemma runWithFailure_eq (acts : List FsAction) :
    ∀ s k, k < acts.length →
      runWithFailure s acts k = (s ++ (acts.take k).map entryOf, true) := by
  induction acts with
  | nil => intro s k h; simp at h
  | cons act rest ih =>
    intro s k h
    match k with
    | 0 => simp [runWithFailure]
    | k' + 1 =>
      rw [runWithFailure, ih _ k' (by simpa using h)]
      simp

/-- C8: when scaffolding action number `k` fails, the error propagates (flag
`true`) and the disk afterwards holds exactly what it held before plus every
artifact of the `k` actions already performed: nothing is rolled back. -/
theorem c8_no_cleanup_on_failure (pp : String) (a : Answers) (s : List Artifact)
    (k : Nat) (h : k < (scaffoldActions pp a).length) :
    runWithFailure s (scaffoldActions pp a) k =
      (s ++ ((scaffoldActions pp a).take k).map entryOf, true) :=
  runWithFailure_eq (scaffoldActions pp a) s k h

/-- C8 witness: failing at the fourth action of a concrete run leaves the
first three created directories on disk and reports the error. -/
theorem c8_no_cleanup_witness :
    runWithFailure [] (scaffoldActions "p" ⟨"app", "loc", false, false⟩) 3 =
      ([] ++ ((scaffoldActions "p" ⟨"app", "loc", false, false⟩).take 3).map entryOf,
       true) :=
  c8_no_cleanup_on_failure "p" ⟨"app", "loc", false, false⟩ [] 3 (by decide)

/-! ### Shell commands: `npm install` and the git sequence -/

/-- The command `installDependencies` runs. -/
def installDependenciesCmds : List String := ["npm install"]

/-- The three commands `initializeGit` runs, in order. -/
def initializeGitCmds : List String :=
  ["git init", "git add .", "git commit -m \"Initial commit from create-joji-app\""]

/-- The shell commands the main action issues after scaffolding:
`installDependencies` only under `if (answers.installNow)`, then
`initializeGit` with no condition at all. -/
def shellCommandsRun (a : Answers) : List String :=
  (if a.installNow then installDependenciesCmds else []) ++ initializeGitCmds

/-- C6 counterexample: with every optional choice declined (`useRouter` and
`installNow` both false), `npm install` is indeed skipped but the git
commands still run — they are not conditioned on any user choice. -/
theorem c6_git_unconditional_counterexample :
    "git init" ∈
      shellCommandsRun ⟨"my-react-app", "C:/Users/JojoW/Documents/Coding", false, false⟩ ∧
    "npm install" ∉
      shellCommandsRun ⟨"my-react-app", "C:/Users/JojoW/Documents/Coding", false, false⟩ := by
  decide

/-- C6 (amended): `npm install` is run exactly when the user answered yes to
installing now, while the three version-control commands are run
unconditionally on every run. -/
theorem c6_amended_install_optional_git_always (a : Answers) :
    (("npm install" ∈ shellCommandsRun a) ↔ a.installNow = true) ∧
    "git init" ∈ shellCommandsRun a ∧
    "git add ." ∈ shellCommandsRun a ∧
    "git commit -m \"Initial commit from create-joji-app\"" ∈ shellCommandsRun a := by
  rcases h : a.installNow with _ | _ <;>
    simp [shellCommandsRun, installDependenciesCmds, initializeGitCmds, h]

/-! ### Whole-tree determinism -/

/-- Everything the scaffolding steps put on disk for a set of answers: the
action list, paths and byte contents included, at the project path the main
action computes from the answers. -/
def scaffoldOutput (a : Answers) : List FsAction :=
  scaffoldActions (projectPathOf a.projectLocation a.projectName) a

/-- C7: two runs whose answers agree on project name, location, router choice
and install choice produce identical action lists — the same paths and the
same byte content for every file; nothing else influences the output. -/
theorem c7_deterministic_file_tree (a b : Answers)
    (h1 : a.projectName = b.projectName)
    (h2 : a.projectLocation = b.projectLocation)
    (h3 : a.useRouter = b.useRouter)
    (h4 : a.installNow = b.installNow) :
    scaffoldOutput a = scaffoldOutput b := by
  obtain ⟨an, al, ar, ai⟩ := a
  obtain ⟨bn, bl, br, bi⟩ := b
  cases h1; cases h2; cases h3; cases h4
  rfl

/-- C7 witness: the determinism theorem applied at concrete equal answers. -/
theorem c7_deterministic_witness :
    scaffoldOutput ⟨"app", "C:\\dir", true, true⟩ =
      scaffoldOutput ⟨"app", "C:\\dir", true, true⟩ :=
  c7_deterministic_file_tree _ _ rfl rfl rfl rfl

/-! ### The phase after scaffolding: install, git, success message -/

/-- Model of `installDependencies`: on failure the catch re-throws after the
spinner message, so the caller sees the error; on success the install
command has run. -/
def installDependenciesRun (installFails : Bool) : Except String (List String) :=
  if installFails then Except.error "Failed to install dependencies"
  else Except.ok installDependenciesCmds

/-- Model of `initializeGit`: the three commands run in order until one
fails; the catch swallows the failure and only warns, so the function never
propagates an error.  Returns the commands attempted and whether it warned. -/
def initializeGitRun (gitFailAt : Option (Fin 3)) : List String × Bool :=
  match gitFailAt with
  | none => (initializeGitCmds, false)
  | some k => (initializeGitCmds.take (k.val + 1), true)

/-- The success banner printed at the end of the main action. -/
def successMessage : String := "✨ Success! Your project is ready!"

/-- The tail of the main action after the four scaffolding steps: optional
install (whose failure aborts), unconditional git initialization (whose
failure is swallowed), then the success message.  `ok` carries the shell
commands run, whether git warned, and the printed success banner;
`error` means the run aborted before the banner. -/
def mainAfterScaffold (a : Answers) (installFails : Bool)
    (gitFailAt : Option (Fin 3)) : Except String (List String × Bool × String) :=
  match (if a.installNow then installDependenciesRun installFails
         else Except.ok []) with
  | Except.error e => Except.error e
  | Except.ok installCmds =>
    let git := initializeGitRun gitFailAt
    Except.ok (installCmds ++ git.1, git.2, successMessage)

/-- C10: whatever happens to the git commands, a run whose install step does
not fail ends with the success banner; a failing install on a run that chose
to install aborts with the propagated error, and the banner is never
reached. -/
theorem c10_git_swallowed_install_propagates (a : Answers) (g : Option (Fin 3)) :
    (∃ out, mainAfterScaffold a false g = Except.ok out ∧
      out.2.2 = successMessage ∧ out.2.1 = g.isSome) ∧
    (a.installNow = true →
      mainAfterScaffold a true g = Except.error "Failed to install dependencies") := by
  constructor
  · rcases h : a.installNow with _ | _ <;> rcases g with _ | k
    · exact ⟨(initializeGitCmds, false, successMessage),
        by simp [mainAfterScaffold, h, initializeGitRun], rfl, rfl⟩
    · exact ⟨(initializeGitCmds.take (k.val + 1), true, successMessage),
        by simp [mainAfterScaffold, h, initializeGitRun], rfl, rfl⟩
    · exact ⟨(installDependenciesCmds ++ initializeGitCmds, false, successMessage),
        by simp [mainAfterScaffold, h, installDependenciesRun, initializeGitRun],
        rfl, rfl⟩
    · exact ⟨(installDependenciesCmds ++ initializeGitCmds.take (k.val + 1), true,
          successMessage),
        by simp [mainAfterScaffold, h, installDependenciesRun, initializeGitRun],
        rfl, rfl⟩
  · intro h
    simp [mainAfterScaffold, h, installDependenciesRun]

/-- C10 witness: a run that chose to install and whose `npm install` fails
aborts with the error even though git would have succeeded. -/
theorem c10_witness :
    mainAfterScaffold ⟨"app", "loc", false, true⟩ true none =
      Except.error "Failed to install dependencies" :=
  (c10_git_swallowed_install_propagates ⟨"app", "loc", false, true⟩ none).2 rfl

/-! ### C9: location normalization and validation -/

/-- C9 counterexample: the location validator runs `fs.existsSync`, which an
existing plain file satisfies just as well as a directory — with only the
file `C:/tmp/notes.txt` on disk, the input `C:\tmp\notes.txt` is accepted
although its normalized path is not a directory. -/
theorem c9_location_validator_counterexample :
    locationValidate [⟨"C:/tmp/notes.txt", false⟩] "C:\\tmp\\notes.txt" =
      Except.ok () ∧
    isDirOn [⟨"C:/tmp/notes.txt", false⟩]
      (normalizeSlashes "C:\\tmp\\notes.txt") = false :=
  ⟨rfl, rfl⟩

/-- C9 (amended): every backslash of the entered location is replaced by a
forward slash (character by character, nothing else changed); the validator
accepts an input exactly when the normalized path exists on disk — as any
file-system entry, file or directory; the accepted prompt answer therefore
names an existing entry; and the project path is the join of the normalized
location with the project name. -/
theorem c9_amended_location_normalization (fs : Fs) (input loc name : String) :
    (locationValidate fs input = Except.ok () ↔
      existsSync fs (normalizeSlashes input) = true) ∧
    (normalizeSlashes input).data.length = input.data.length ∧
    (∀ k : Nat, (normalizeSlashes input).data[k]? =
      (input.data[k]?).map fun c => if c = '\\' then '/' else c) ∧
    projectPathOf loc name = pathJoin (normalizeSlashes loc) name ∧
    (∀ inputs, promptLocation fs inputs = some input →
      existsSync fs (normalizeSlashes input) = true) := by
  refine ⟨?_, by simp [normalizeSlashes], ?_, rfl, ?_⟩
  · unfold locationValidate
    rcases h : existsSync fs (normalizeSlashes input) with _ | _ <;> simp [h]
  · intro k
    simp [normalizeSlashes]
  · intro inputs h
    have hp := List.find?_some h
    unfold locationValidate at hp
    rcases he : existsSync fs (normalizeSlashes input) with _ | _
    · exfalso
      rw [he] at hp
      simp at hp
    · rfl

/-- C9 witness: with `C:/docs` on disk, the one-element input stream
`C:\docs` is accepted and its normalized path exists. -/
theorem c9_location_witness :
    existsSync [⟨"C:/docs", true⟩] (normalizeSlashes "C:\\docs") = true :=
  (c9_amended_location_normalization [⟨"C:/docs", true⟩] "C:\\docs" "C:\\docs"
      "app").2.2.2.2 ["C:\\docs"] (by decide)

end CreateJojiApp
